import Mathlib

/-! Shallow embedding of `aqiq_tims/services/rest.py`, the TIMS fiscal-payload
construction module: per-line tax classification (`calculate_tax`), VAT bucket
aggregation (`update_vat_values`), payload assembly (`create_payload`),
payload validation (`validate_payload`) and invoice-reference formatting
(`format_invoice_number`).  Monetary amounts are modelled as rationals,
Python strings as `List Char`, and the database lookups
(`frappe.db.get_value`) as explicit function parameters. -/

namespace AqiqTims

/-- Rounding of a rational to an integer with ties to even, modelling
the built-in rounding `round(x)` of Python. -/
def roundHalfEven (q : ℚ) : ℤ :=
  let f := ⌊q⌋
  let r := q - (f : ℚ)
  if r < 1/2 then f
  else if 1/2 < r then f + 1
  else if 2 ∣ f then f else f + 1

/-- Python `round(x, 2)`: round to two decimal places. -/
def round2 (q : ℚ) : ℚ := (roundHalfEven (q * 100) : ℚ) / 100

/-- Python `int(x)`: truncation toward zero. -/
def truncInt (q : ℚ) : ℤ := if q < 0 then ⌈q⌉ else ⌊q⌋

/-- Python substring containment `pat in s` on character lists. -/
def containsSub (pat : List Char) : List Char → Bool
  | [] => pat.isEmpty
  | c :: cs => pat.isPrefixOf (c :: cs) || containsSub pat cs

/-- One row of the `get_invoice_items` SQL query: the fields of a Sales
Invoice Item that `calculate_tax` and `update_vat_values` use.  An empty
`item_tax_template` models a NULL/absent template (Python falsiness);
`title` is the joined Item Tax Template title, used as the aggregation
label. -/
structure InvoiceItem where
  item_code : List Char
  item_name : List Char
  rate : ℚ
  qty : ℚ
  item_tax_template : List Char
  title : List Char

/-- The normalized per-line dict built by `calculate_tax` and
`create_zero_rated_item` (payload `data` entries). -/
structure ClassifiedItem where
  productCode : List Char
  productDesc : List Char
  quantity : ℚ
  unitPrice : ℚ
  discount : ℚ
  taxtype : ℤ

/-- Result of `get_tax_category`: whether invoice taxes are included in the
print rate. -/
inductive TaxCategory
  | Inclusive
  | Exclusive
  deriving DecidableEq

/-- The twelve keys of the `vat_values` dict. -/
inductive VatKey
  | VAT_A_NET
  | VAT_A
  | VAT_B_NET
  | VAT_B
  | VAT_C_NET
  | VAT_C
  | VAT_D_NET
  | VAT_D
  | VAT_E_NET
  | VAT_E
  | VAT_F_NET
  | VAT_F
  deriving DecidableEq, Inhabited

/-- The `vat_values` dict: a total map from bucket keys to amounts. -/
def VatValues : Type := VatKey → ℚ

/-- Models `initialize_vat_values`: every bucket entry starts at zero. -/
def init_vat_values : VatValues := fun _ => 0

/-- Models the dict update `vat_values[key] += amt`. -/
def bump (v : VatValues) (key : VatKey) (amt : ℚ) : VatValues :=
  fun k => if k = key then v k + amt else v k

/-- The `kra_tax_mapping` dict of `update_vat_values`, as the ordered list of
(label pattern, net key, tax key) rules Python iterates over. -/
def kra_tax_mapping : List (List Char × VatKey × VatKey) :=
  [("VAT 16%".toList, VatKey.VAT_A_NET, VatKey.VAT_A),
   ("VAT - IG".toList, VatKey.VAT_A_NET, VatKey.VAT_A),
   ("Zero Rated".toList, VatKey.VAT_E_NET, VatKey.VAT_E),
   ("Exempt".toList, VatKey.VAT_F_NET, VatKey.VAT_F)]

/-- The `for template_name, (net_key, tax_key) in kra_tax_mapping.items()`
loop: first rule whose pattern is a substring of the label wins. -/
def findMatch : List (List Char × VatKey × VatKey) → List Char → Option (VatKey × VatKey)
  | [], _ => none
  | (pat, keys) :: rest, label =>
      if containsSub pat label then some keys else findMatch rest label

/-- Models `update_vat_values(vat_values, tax_type, taxable_amount,
tax_amount)`: route the net and tax amounts of a line to a VAT bucket by its tax
template title.  Empty and unmatched labels default to `VAT_E_NET`; matched
rules with tax key `VAT_E` or `VAT_F` accumulate the net amount only. -/
def update_vat_values (vat_values : VatValues) (tax_type : List Char)
    (taxable_amount tax_amount : ℚ) : VatValues :=
  if tax_type = [] then bump vat_values VatKey.VAT_E_NET taxable_amount
  else
    match findMatch kra_tax_mapping tax_type with
    | some (net_key, tax_key) =>
        let v1 := bump vat_values net_key taxable_amount
        if tax_key ≠ VatKey.VAT_E ∧ tax_key ≠ VatKey.VAT_F then
          bump v1 tax_key tax_amount
        else v1
    | none => bump vat_values VatKey.VAT_E_NET taxable_amount

/-- Models `get_tax_rate_from_template(template_name)`: look up the `tax_rate` of the template
detail row in the database; an empty template name or an absent row
yields 0 (Python `tax_rate or 0`). -/
def get_tax_rate_from_template (db : List Char → Option ℚ)
    (template_name : List Char) : ℚ :=
  if template_name = [] then 0
  else (db template_name).getD 0

/-- Models `create_zero_rated_item(item)`: item entry with zero tax, used
when the line item has no tax template. -/
def create_zero_rated_item (item : InvoiceItem) : ClassifiedItem × ℚ × ℚ :=
  let new_item : ClassifiedItem :=
    { productCode := item.item_code
      productDesc := item.item_name
      quantity := |item.qty|
      unitPrice := |item.rate|
      discount := 0
      taxtype := 0 }
  (new_item, new_item.quantity * new_item.unitPrice, 0)

/-- Models `calculate_tax(item, tax_category)`: resolve the tax rate of the item
and return the normalized item plus its taxable amount and tax amount. -/
def calculate_tax (db : List Char → Option ℚ) (item : InvoiceItem)
    (tax_category : TaxCategory) : ClassifiedItem × ℚ × ℚ :=
  if item.item_tax_template = [] then create_zero_rated_item item
  else
    let tax_rate := get_tax_rate_from_template db item.item_tax_template
    let tax_value := 1 + tax_rate / 100
    let qty := |item.qty|
    let unit_price := |item.rate|
    let discount : ℚ := 0
    let new_item : ClassifiedItem :=
      { productCode := item.item_code
        productDesc := item.item_name
        quantity := qty
        unitPrice := unit_price
        discount := discount
        taxtype := truncInt tax_rate }
    if tax_rate = 0 then
      (new_item, unit_price * qty, 0)
    else
      if tax_category = TaxCategory.Inclusive then
        let taxable_amount := (unit_price * qty) / tax_value
        (new_item, taxable_amount, taxable_amount * (tax_rate / 100))
      else
        let taxable_amount := unit_price * qty
        (new_item, taxable_amount, taxable_amount * (tax_rate / 100))

/-- Python `invoice_number.replace('ACC-', '')`: remove every occurrence of
the organizational prefix, scanning left to right. -/
def stripACC : List Char → List Char
  | 'A' :: 'C' :: 'C' :: '-' :: rest => stripACC rest
  | c :: rest => c :: stripACC rest
  | [] => []

/-- Python negative-index slicing `s[-n:]`: the last `n` characters. -/
def pyTakeRight (n : Nat) (s : List Char) : List Char := s.drop (s.length - n)

/-- Python `s.lstrip('0')`: remove leading zero characters. -/
def lstripZeros (s : List Char) : List Char := s.dropWhile (fun c => c == '0')

/-- Models `format_invoice_number(invoice_number)`: format the invoice name
to comply with the 18-character limit of KRA. -/
def format_invoice_number (invoice_number : List Char) : List Char :=
  if invoice_number.length ≤ 18 then invoice_number
  else
    let parts := (stripACC invoice_number).splitOn '-'
    if parts.length = 3 then
      let year := pyTakeRight 2 (parts.getD 1 [])
      let number := lstripZeros (parts.getD 2 [])
      let formatted := parts.getD 0 [] ++ year ++ number
      formatted.take 18
    else
      pyTakeRight 18 invoice_number

/-- The fields of the Sales Invoice document that the payload pipeline
reads. -/
structure SalesInvoiceDoc where
  name : List Char
  status : List Char
  is_return : Bool
  grand_total : ℚ
  total_taxes_and_charges : ℚ

/-- The payload dict assembled by `create_payload`. -/
structure Payload where
  saleType : List Char
  cuin : List Char
  till : List Char
  rctNo : List Char
  total : ℚ
  Paid : ℚ
  Payment : List Char
  CustomerPIN : List Char
  VAT_A_Net : ℚ
  VAT_A : ℚ
  VAT_B_Net : ℚ
  VAT_B : ℚ
  VAT_C_Net : ℚ
  VAT_C : ℚ
  VAT_D_Net : ℚ
  VAT_D : ℚ
  VAT_E_Net : ℚ
  VAT_E : ℚ
  VAT_F_Net : ℚ
  VAT_F : ℚ
  data : List ClassifiedItem

/-- Models `create_payload(doc, vat_values, items, payment_method,
customer_pin, till_no, rct_no)`.  `kra_cuin` stands for the KRA Response
`cuin` database lookup used for refunds. -/
def create_payload (doc : SalesInvoiceDoc) (kra_cuin : List Char)
    (vat_values : VatValues) (items : List ClassifiedItem)
    (payment_method customer_pin till_no rct_no : List Char) : Payload :=
  let total :=
    (vat_values VatKey.VAT_A_NET + vat_values VatKey.VAT_A) +
    (vat_values VatKey.VAT_B_NET + vat_values VatKey.VAT_B) +
    (vat_values VatKey.VAT_C_NET + vat_values VatKey.VAT_C) +
    (vat_values VatKey.VAT_D_NET + vat_values VatKey.VAT_D) +
    vat_values VatKey.VAT_E_NET +
    vat_values VatKey.VAT_F_NET
  let payload_type := if !doc.is_return then "sales".toList else "refund".toList
  let cuin := if !doc.is_return then [] else kra_cuin
  { saleType := payload_type
    cuin := cuin
    till := till_no
    rctNo := rct_no
    total := round2 total
    Paid := round2 total
    Payment := payment_method
    CustomerPIN := customer_pin
    VAT_A_Net := round2 (vat_values VatKey.VAT_A_NET)
    VAT_A := round2 (vat_values VatKey.VAT_A)
    VAT_B_Net := round2 (vat_values VatKey.VAT_B_NET)
    VAT_B := round2 (vat_values VatKey.VAT_B)
    VAT_C_Net := round2 (vat_values VatKey.VAT_C_NET)
    VAT_C := round2 (vat_values VatKey.VAT_C)
    VAT_D_Net := round2 (vat_values VatKey.VAT_D_NET)
    VAT_D := round2 (vat_values VatKey.VAT_D)
    VAT_E_Net := round2 (vat_values VatKey.VAT_E_NET)
    VAT_E := round2 (vat_values VatKey.VAT_E)
    VAT_F_Net := round2 (vat_values VatKey.VAT_F_NET)
    VAT_F := round2 (vat_values VatKey.VAT_F)
    data := items }

/-- The per-item loop of `build_payload`: classify each item with
`calculate_tax`, feed its label and amounts to `update_vat_values`, and
collect the normalized items in order. -/
def process_items (db : List Char → Option ℚ) (tax_category : TaxCategory)
    (invoice_items : List InvoiceItem) : VatValues × List ClassifiedItem :=
  invoice_items.foldl
    (fun acc item =>
      let r := calculate_tax db item tax_category
      (update_vat_values acc.1 item.title r.2.1 r.2.2, acc.2 ++ [r.1]))
    (init_vat_values, [])

/-- Models `build_payload(doc, device_setup)` up to payload assembly.  The
invoice items, tax category, customer PIN and refund `cuin` stand for the
database reads performed there; the `validate_payload` call that follows in
the source is modelled separately as the function `validate_payload`. -/
def build_payload (db : List Char → Option ℚ) (doc : SalesInvoiceDoc)
    (invoice_items : List InvoiceItem) (tax_category : TaxCategory)
    (customer_pin kra_cuin : List Char) : Payload :=
  let payment_method :=
    if doc.status = "Paid".toList then "Cash".toList else "Credit".toList
  let till_no : List Char := []
  let rct_no := format_invoice_number doc.name
  let r := process_items db tax_category invoice_items
  create_payload doc kra_cuin r.1 r.2 payment_method customer_pin till_no rct_no

/-- The blocking errors `validate_payload` can raise via `frappe.throw`; the
item errors carry the offending product code named in the message. -/
inductive ValidationError
  | TotalMismatch (calculated invoice : ℚ)
  | TaxMismatch (calculated invoice : ℚ)
  | InvalidQuantity (productCode : List Char)
  | InvalidUnitPrice (productCode : List Char)
  deriving DecidableEq

/-- The `for item in payload["data"]` loop at the end of `validate_payload`:
the first item with non-positive quantity or unit price raises. -/
def validate_items : List ClassifiedItem → Except ValidationError Unit
  | [] => Except.ok ()
  | item :: rest =>
      if item.quantity ≤ 0 then
        Except.error (ValidationError.InvalidQuantity item.productCode)
      else if item.unitPrice ≤ 0 then
        Except.error (ValidationError.InvalidUnitPrice item.productCode)
      else validate_items rest

/-- The `calculated_total` sum recomputed from payload fields in
`validate_payload`. -/
def payload_calculated_total (payload : Payload) : ℚ :=
  (payload.VAT_A_Net + payload.VAT_A) +
  (payload.VAT_B_Net + payload.VAT_B) +
  (payload.VAT_C_Net + payload.VAT_C) +
  (payload.VAT_D_Net + payload.VAT_D) +
  payload.VAT_E_Net +
  payload.VAT_F_Net

/-- The `total_tax` sum recomputed from payload fields in
`validate_payload`. -/
def payload_total_tax (payload : Payload) : ℚ :=
  payload.VAT_A + payload.VAT_B + payload.VAT_C + payload.VAT_D

/-- Models `validate_payload(payload, doc)`: totals within 0.01 of the
recorded totals of the invoice, then per-item positivity checks. -/
def validate_payload (payload : Payload) (doc : SalesInvoiceDoc) :
    Except ValidationError Unit :=
  let calculated_total := payload_calculated_total payload
  if |calculated_total - doc.grand_total| > 1/100 then
    Except.error (ValidationError.TotalMismatch calculated_total doc.grand_total)
  else
    let total_tax := payload_total_tax payload
    if |total_tax - doc.total_taxes_and_charges| > 1/100 then
      Except.error (ValidationError.TaxMismatch total_tax doc.total_taxes_and_charges)
    else validate_items payload.data

/-! Helper lemmas shared by the claim theorems. -/

theorem bump_apply_self (v : VatValues) (key : VatKey) (amt : ℚ) :
    bump v key amt key = v key + amt := by
  simp [bump]

theorem bump_apply_ne (v : VatValues) (key : VatKey) (amt : ℚ) (k : VatKey)
    (hk : k ≠ key) : bump v key amt k = v k := by
  simp [bump, hk]

theorem update_vat_values_untouched (v : VatValues) (label : List Char)
    (ta tx : ℚ) (k : VatKey)
    (h1 : k ≠ VatKey.VAT_A_NET) (h2 : k ≠ VatKey.VAT_A)
    (h3 : k ≠ VatKey.VAT_E_NET) (h4 : k ≠ VatKey.VAT_F_NET) :
    update_vat_values v label ta tx k = v k := by
  unfold update_vat_values
  split
  · exact bump_apply_ne v _ ta k h3
  · simp only [kra_tax_mapping, findMatch]
    split_ifs <;>
      simp [bump, h1, h2, h3, h4]

theorem foldl_update_untouched (calls : List (List Char × ℚ × ℚ))
    (v : VatValues) (k : VatKey)
    (h1 : k ≠ VatKey.VAT_A_NET) (h2 : k ≠ VatKey.VAT_A)
    (h3 : k ≠ VatKey.VAT_E_NET) (h4 : k ≠ VatKey.VAT_F_NET) :
    (calls.foldl (fun v c => update_vat_values v c.1 c.2.1 c.2.2) v) k = v k := by
  induction calls generalizing v with
  | nil => rfl
  | cons c rest ih =>
      rw [List.foldl_cons, ih]
      exact update_vat_values_untouched v c.1 c.2.1 c.2.2 k h1 h2 h3 h4

theorem process_items_fold_untouched (db : List Char → Option ℚ)
    (tax_category : TaxCategory) (invoice_items : List InvoiceItem)
    (acc : VatValues × List ClassifiedItem) (k : VatKey)
    (h1 : k ≠ VatKey.VAT_A_NET) (h2 : k ≠ VatKey.VAT_A)
    (h3 : k ≠ VatKey.VAT_E_NET) (h4 : k ≠ VatKey.VAT_F_NET) :
    (invoice_items.foldl
      (fun acc item =>
        let r := calculate_tax db item tax_category
        (update_vat_values acc.1 item.title r.2.1 r.2.2, acc.2 ++ [r.1]))
      acc).1 k = acc.1 k := by
  induction invoice_items generalizing acc with
  | nil => rfl
  | cons a rest ih =>
      rw [List.foldl_cons, ih]
      exact update_vat_values_untouched acc.1 a.title _ _ k h1 h2 h3 h4

theorem process_items_untouched (db : List Char → Option ℚ)
    (tax_category : TaxCategory) (invoice_items : List InvoiceItem) (k : VatKey)
    (h1 : k ≠ VatKey.VAT_A_NET) (h2 : k ≠ VatKey.VAT_A)
    (h3 : k ≠ VatKey.VAT_E_NET) (h4 : k ≠ VatKey.VAT_F_NET) :
    (process_items db tax_category invoice_items).1 k = 0 := by
  unfold process_items
  rw [process_items_fold_untouched db tax_category invoice_items _ k h1 h2 h3 h4]
  rfl

theorem round2_zero : round2 0 = 0 := by
  norm_num [round2, roundHalfEven]

/-! Claim theorems. -/

/-- C3: for every sequence of aggregator calls starting from the all-zero
buckets, with any labels and any taxable/tax amounts, the tax amounts of
buckets E and F stay zero. -/
theorem C3_buckets_E_F_tax_stay_zero (calls : List (List Char × ℚ × ℚ)) :
    (calls.foldl (fun v c => update_vat_values v c.1 c.2.1 c.2.2)
      init_vat_values) VatKey.VAT_E = 0 ∧
    (calls.foldl (fun v c => update_vat_values v c.1 c.2.1 c.2.2)
      init_vat_values) VatKey.VAT_F = 0 := by
  constructor <;>
    · rw [foldl_update_untouched] <;> first | rfl | decide

theorem findMatch_eq_none_iff (rules : List (List Char × VatKey × VatKey))
    (label : List Char) :
    findMatch rules label = none ↔
      ∀ rule ∈ rules, containsSub rule.1 label = false := by
  induction rules with
  | nil => simp [findMatch]
  | cons a rest ih =>
      obtain ⟨pat, keys⟩ := a
      unfold findMatch
      split_ifs with hc
      · simp only [List.forall_mem_cons]
        exact iff_of_false (by simp) (fun hf => by simp [hf.1] at hc)
      · simp only [List.forall_mem_cons, ih]
        simp at hc
        simp [hc]

/-- C4: an aggregator call whose label is empty or matches no rule of the
mapping accumulates the whole taxable amount into `VAT_E_NET`, discards the
tax amount, and changes no other bucket (and, being a total function, never
raises). -/
theorem C4_unmatched_label_defaults_to_E (v : VatValues) (label : List Char)
    (ta tx : ℚ)
    (h : label = [] ∨ ∀ rule ∈ kra_tax_mapping, containsSub rule.1 label = false) :
    update_vat_values v label ta tx VatKey.VAT_E_NET = v VatKey.VAT_E_NET + ta ∧
    ∀ k, k ≠ VatKey.VAT_E_NET → update_vat_values v label ta tx k = v k := by
  have hb : update_vat_values v label ta tx = bump v VatKey.VAT_E_NET ta := by
    unfold update_vat_values
    rcases h with h | h
    · rw [if_pos h]
    · by_cases hl : label = []
      · rw [if_pos hl]
      · rw [if_neg hl, (findMatch_eq_none_iff kra_tax_mapping label).mpr h]
  rw [hb]
  exact ⟨bump_apply_self v _ ta, fun k hk => bump_apply_ne v _ ta k hk⟩

theorem C4_witness :
    update_vat_values init_vat_values "Mystery Label".toList 5 3
      VatKey.VAT_E_NET = init_vat_values VatKey.VAT_E_NET + 5 :=
  (C4_unmatched_label_defaults_to_E init_vat_values "Mystery Label".toList 5 3
    (Or.inr (by decide))).1

/-- C10: for every input item list, with any labels and amounts, the
fields `VAT_B_Net`, `VAT_B`, `VAT_C_Net`, `VAT_C`, `VAT_D_Net`
and `VAT_D` fields are zero: the mapping of `update_vat_values` only ever
accumulates into buckets A, E and F. -/
theorem C10_buckets_B_C_D_always_zero (db : List Char → Option ℚ)
    (doc : SalesInvoiceDoc) (invoice_items : List InvoiceItem)
    (tax_category : TaxCategory) (customer_pin kra_cuin : List Char) :
    (build_payload db doc invoice_items tax_category customer_pin kra_cuin).VAT_B_Net = 0 ∧
    (build_payload db doc invoice_items tax_category customer_pin kra_cuin).VAT_B = 0 ∧
    (build_payload db doc invoice_items tax_category customer_pin kra_cuin).VAT_C_Net = 0 ∧
    (build_payload db doc invoice_items tax_category customer_pin kra_cuin).VAT_C = 0 ∧
    (build_payload db doc invoice_items tax_category customer_pin kra_cuin).VAT_D_Net = 0 ∧
    (build_payload db doc invoice_items tax_category customer_pin kra_cuin).VAT_D = 0 := by
  refine ⟨?_, ?_, ?_, ?_, ?_, ?_⟩ <;>
    · show round2 ((process_items db tax_category invoice_items).1 _) = 0
      rw [process_items_untouched db tax_category invoice_items _
            (by decide) (by decide) (by decide) (by decide)]
      exact round2_zero

/-- C1: the `total` field of the assembled payload equals the sum over buckets A–D of
(net + tax) plus the net-only amounts of buckets E and F, rounded to two
decimal places; equivalently, it is the rounding of the sum of all bucket
net amounts plus the bucket tax amounts of A–D. -/
theorem C1_payload_total_is_bucket_sum (db : List Char → Option ℚ)
    (doc : SalesInvoiceDoc) (invoice_items : List InvoiceItem)
    (tax_category : TaxCategory) (customer_pin kra_cuin : List Char) :
    (build_payload db doc invoice_items tax_category customer_pin kra_cuin).total =
      round2
        (((process_items db tax_category invoice_items).1 VatKey.VAT_A_NET +
          (process_items db tax_category invoice_items).1 VatKey.VAT_A) +
         ((process_items db tax_category invoice_items).1 VatKey.VAT_B_NET +
          (process_items db tax_category invoice_items).1 VatKey.VAT_B) +
         ((process_items db tax_category invoice_items).1 VatKey.VAT_C_NET +
          (process_items db tax_category invoice_items).1 VatKey.VAT_C) +
         ((process_items db tax_category invoice_items).1 VatKey.VAT_D_NET +
          (process_items db tax_category invoice_items).1 VatKey.VAT_D) +
         (process_items db tax_category invoice_items).1 VatKey.VAT_E_NET +
         (process_items db tax_category invoice_items).1 VatKey.VAT_F_NET) ∧
    (build_payload db doc invoice_items tax_category customer_pin kra_cuin).total =
      round2
        (((process_items db tax_category invoice_items).1 VatKey.VAT_A_NET +
          (process_items db tax_category invoice_items).1 VatKey.VAT_B_NET +
          (process_items db tax_category invoice_items).1 VatKey.VAT_C_NET +
          (process_items db tax_category invoice_items).1 VatKey.VAT_D_NET +
          (process_items db tax_category invoice_items).1 VatKey.VAT_E_NET +
          (process_items db tax_category invoice_items).1 VatKey.VAT_F_NET) +
         ((process_items db tax_category invoice_items).1 VatKey.VAT_A +
          (process_items db tax_category invoice_items).1 VatKey.VAT_B +
          (process_items db tax_category invoice_items).1 VatKey.VAT_C +
          (process_items db tax_category invoice_items).1 VatKey.VAT_D)) := by
  refine ⟨rfl, ?_⟩
  show round2 _ = round2 _
  congr 1
  ring

/-- C2: for a line item with a tax template, writing `r` for the rate
resolved from the template, `calculate_tax` returns: at `r = 0`, taxable
amount `unitPrice * quantity` and tax 0 unconditionally; at `r ≠ 0` in the
Inclusive category, taxable amount `(unitPrice * quantity) / (1 + r/100)`
and tax `taxable * r/100`; at `r ≠ 0` in the Exclusive category, taxable
amount `unitPrice * quantity` and tax `taxable * r/100` — with `unitPrice`
and `quantity` the absolute values of the `rate` and `qty` fields of the line. -/
theorem C2_calculate_tax_cases (db : List Char → Option ℚ)
    (item : InvoiceItem) (tax_category : TaxCategory)
    (h : item.item_tax_template ≠ [])
    (r : ℚ) (hr : r = get_tax_rate_from_template db item.item_tax_template) :
    (r = 0 →
      (calculate_tax db item tax_category).2.1 = |item.rate| * |item.qty| ∧
      (calculate_tax db item tax_category).2.2 = 0) ∧
    (r ≠ 0 → tax_category = TaxCategory.Inclusive →
      (calculate_tax db item tax_category).2.1 =
        (|item.rate| * |item.qty|) / (1 + r / 100) ∧
      (calculate_tax db item tax_category).2.2 =
        (calculate_tax db item tax_category).2.1 * (r / 100)) ∧
    (r ≠ 0 → tax_category = TaxCategory.Exclusive →
      (calculate_tax db item tax_category).2.1 = |item.rate| * |item.qty| ∧
      (calculate_tax db item tax_category).2.2 =
        (calculate_tax db item tax_category).2.1 * (r / 100)) := by
  subst hr
  refine ⟨?_, ?_, ?_⟩
  · intro h0
    simp [calculate_tax, h, h0]
  · intro h0 hc
    subst hc
    simp [calculate_tax, h, h0]
  · intro h0 hc
    subst hc
    simp [calculate_tax, h, h0]

theorem C2_witness :
    (calculate_tax (fun _ => some 16)
        { item_code := "ITM-A".toList, item_name := "Item A".toList,
          rate := 116, qty := 1, item_tax_template := "VAT".toList,
          title := "VAT 16%".toList }
        TaxCategory.Inclusive).2.1 =
      (|(116 : ℚ)| * |(1 : ℚ)|) / (1 + 16 / 100) :=
  ((C2_calculate_tax_cases (fun _ => some 16)
      { item_code := "ITM-A".toList, item_name := "Item A".toList,
        rate := 116, qty := 1, item_tax_template := "VAT".toList,
        title := "VAT 16%".toList }
      TaxCategory.Inclusive (by decide) 16 (by decide)).2.1
    (by norm_num) rfl).1

/-- The database view of a repository with no Item Tax Template Detail row
for any template: every `tax_rate` lookup comes back empty. -/
def dbEmpty : List Char → Option ℚ := fun _ => none

/-- C6 counterexample: for a template whose lookup finds no rate and whose
label does not indicate a zero-rate template ("VAT 16%"),
`get_tax_rate_from_template` returns 0, not the claimed standard rate
16%. -/
theorem C6_counterexample_rate_is_zero_not_16 :
    get_tax_rate_from_template dbEmpty "VAT 16%".toList = 0 ∧
    get_tax_rate_from_template dbEmpty "VAT 16%".toList ≠ 16 := by
  constructor <;> decide

/-- C6 amended: for every line item with a tax template whose lookup yields
no explicit rate, rate resolution returns 0 — the default of the template-lookup
variant — regardless of the template label. -/
theorem C6_amended_missing_rate_defaults_to_zero (db : List Char → Option ℚ)
    (template_name : List Char) (h : db template_name = none) :
    get_tax_rate_from_template db template_name = 0 := by
  unfold get_tax_rate_from_template
  split_ifs with h1
  · rfl
  · rw [h]
    rfl

theorem C6_amended_witness :
    get_tax_rate_from_template dbEmpty "VAT 16%".toList = 0 :=
  C6_amended_missing_rate_defaults_to_zero dbEmpty "VAT 16%".toList rfl

/-- A concrete line item whose rate 1/3 is not representable in two decimal
places, with a tax template resolving to 16%. -/
def itemThirdRate : InvoiceItem :=
  { item_code := "ITM-R".toList
    item_name := "Item R".toList
    rate := 1/3
    qty := 1
    item_tax_template := "VAT".toList
    title := "VAT 16%".toList }

/-- C9 counterexample: `calculate_tax` stores the absolute value of the
rate of the line as `unitPrice` without rounding it to two decimal places: at
rate 1/3 the produced `unitPrice` differs from the claimed rounded value. -/
theorem C9_counterexample_unitPrice_not_rounded :
    ((calculate_tax (fun _ => some 16) itemThirdRate TaxCategory.Exclusive).1).unitPrice ≠
      round2 |itemThirdRate.rate| := by
  have hu : ((calculate_tax (fun _ => some 16) itemThirdRate
      TaxCategory.Exclusive).1).unitPrice = |(1/3 : ℚ)| := rfl
  have ha : |(1/3 : ℚ)| = 1/3 := by norm_num
  have hf : ⌊|(1/3 : ℚ)| * 100⌋ = 33 := by
    rw [ha, show (1/3 : ℚ) * 100 = 100/3 by ring, Int.floor_eq_iff]
    constructor <;> norm_num
  have hrhe : roundHalfEven (|(1/3 : ℚ)| * 100) = 33 := by
    unfold roundHalfEven
    simp only [hf]
    norm_num [ha]
  have hr2 : round2 |itemThirdRate.rate| = 33/100 := by
    show round2 |(1/3 : ℚ)| = 33/100
    unfold round2
    rw [hrhe]
    norm_num
  rw [hu, hr2, ha]
  norm_num

/-- C9 amended: in both the normal path and the missing-template zero-rated
path, the `unitPrice` of the produced item equals the absolute value of the
`rate` field of the source line, with no rounding applied. -/
theorem C9_amended_unitPrice_is_abs_rate (db : List Char → Option ℚ)
    (item : InvoiceItem) (tax_category : TaxCategory) :
    ((calculate_tax db item tax_category).1).unitPrice = |item.rate| := by
  simp only [calculate_tax, create_zero_rated_item]
  split_ifs <;> rfl

theorem validate_items_ok_iff (items : List ClassifiedItem) :
    validate_items items = Except.ok () ↔
      ∀ item ∈ items, 0 < item.quantity ∧ 0 < item.unitPrice := by
  induction items with
  | nil => simp [validate_items]
  | cons a rest ih =>
      unfold validate_items
      split_ifs with h1 h2
      · exact iff_of_false (by simp)
          (fun hf => absurd (hf a (List.mem_cons_self a rest)).1 (not_lt.mpr h1))
      · exact iff_of_false (by simp)
          (fun hf => absurd (hf a (List.mem_cons_self a rest)).2 (not_lt.mpr h2))
      · simp [List.forall_mem_cons, ih, not_le.mp h1, not_le.mp h2]

theorem validate_items_error_quantity (items : List ClassifiedItem)
    (c : List Char)
    (h : validate_items items = Except.error (ValidationError.InvalidQuantity c)) :
    ∃ item ∈ items, item.productCode = c ∧ item.quantity ≤ 0 := by
  induction items with
  | nil => simp [validate_items] at h
  | cons a rest ih =>
      unfold validate_items at h
      split_ifs at h with h1 h2
      · simp only [Except.error.injEq, ValidationError.InvalidQuantity.injEq] at h
        exact ⟨a, List.mem_cons_self a rest, h, h1⟩
      · simp at h
      · obtain ⟨item, hm, hp⟩ := ih h
        exact ⟨item, List.mem_cons_of_mem a hm, hp⟩

theorem validate_items_error_unitPrice (items : List ClassifiedItem)
    (c : List Char)
    (h : validate_items items = Except.error (ValidationError.InvalidUnitPrice c)) :
    ∃ item ∈ items, item.productCode = c ∧ item.unitPrice ≤ 0 := by
  induction items with
  | nil => simp [validate_items] at h
  | cons a rest ih =>
      unfold validate_items at h
      split_ifs at h with h1 h2
      · simp at h
      · simp only [Except.error.injEq, ValidationError.InvalidUnitPrice.injEq] at h
        exact ⟨a, List.mem_cons_self a rest, h, h2⟩
      · obtain ⟨item, hm, hp⟩ := ih h
        exact ⟨item, List.mem_cons_of_mem a hm, hp⟩

theorem except_error_iff_not_ok (x : Except ValidationError Unit) :
    (∃ e, x = Except.error e) ↔ ¬ x = Except.ok () := by
  cases x with
  | error e => simp
  | ok u => cases u; simp

/-- C5: `validate_payload` raises exactly when the total recomputed from the
bucket fields of the payload is more than 0.01 away from the invoice grand total,
or the sum of the A–D tax fields is more than 0.01 away from the invoice tax
total, or some payload item has non-positive quantity or unit price; the
item errors name the offending product code.  A total difference of at most
0.01 passes the total check. -/
theorem C5_validate_payload_error_iff (payload : Payload)
    (doc : SalesInvoiceDoc) :
    ((∃ e, validate_payload payload doc = Except.error e) ↔
      (|payload_calculated_total payload - doc.grand_total| > 1/100 ∨
       |payload_total_tax payload - doc.total_taxes_and_charges| > 1/100 ∨
       ∃ item ∈ payload.data, item.quantity ≤ 0 ∨ item.unitPrice ≤ 0)) ∧
    (∀ c, validate_payload payload doc =
        Except.error (ValidationError.InvalidQuantity c) →
      ∃ item ∈ payload.data, item.productCode = c ∧ item.quantity ≤ 0) ∧
    (∀ c, validate_payload payload doc =
        Except.error (ValidationError.InvalidUnitPrice c) →
      ∃ item ∈ payload.data, item.productCode = c ∧ item.unitPrice ≤ 0) := by
  unfold validate_payload
  simp only []
  split_ifs with h1 h2
  · refine ⟨iff_of_true ⟨_, rfl⟩ (Or.inl h1), ?_, ?_⟩ <;>
      · intro c hc
        simp at hc
  · refine ⟨iff_of_true ⟨_, rfl⟩ (Or.inr (Or.inl h2)), ?_, ?_⟩ <;>
      · intro c hc
        simp at hc
  · refine ⟨?_, ?_, ?_⟩
    · rw [except_error_iff_not_ok, validate_items_ok_iff]
      simp only [h1, h2, false_or]
      push_neg
      constructor
      · rintro ⟨item, hm, hp⟩
        refine ⟨item, hm, ?_⟩
        by_cases hq : 0 < item.quantity
        · exact Or.inr (hp hq)
        · exact Or.inl (not_lt.mp hq)
      · rintro ⟨item, hm, hp⟩
        refine ⟨item, hm, fun hq => ?_⟩
        rcases hp with hp | hp
        · exact absurd hq (not_lt.mpr hp)
        · exact hp
    · intro c hc
      exact validate_items_error_quantity payload.data c hc
    · intro c hc
      exact validate_items_error_unitPrice payload.data c hc

/-- C7: the reference formatter is a total deterministic function whose
output never exceeds 18 characters, it is idempotent, and any input of
length at most 18 is returned unchanged. -/
theorem C7_format_bounded_and_idempotent (s : List Char) :
    (format_invoice_number s).length ≤ 18 ∧
    format_invoice_number (format_invoice_number s) = format_invoice_number s ∧
    (s.length ≤ 18 → format_invoice_number s = s) := by
  have hid : ∀ t : List Char, t.length ≤ 18 → format_invoice_number t = t := by
    intro t ht
    unfold format_invoice_number
    rw [if_pos ht]
  have hlen : ∀ t : List Char, (format_invoice_number t).length ≤ 18 := by
    intro t
    unfold format_invoice_number
    simp only []
    split_ifs with h1 h2
    · exact h1
    · simp only [List.length_take]
      exact Nat.min_le_left 18 _
    · simp only [pyTakeRight, List.length_drop]
      omega
  exact ⟨hlen s, hid _ (hlen s), hid s⟩

theorem C7_witness :
    format_invoice_number "SINV-001".toList = "SINV-001".toList :=
  (C7_format_bounded_and_idempotent "SINV-001".toList).2.2 (by decide)

/-- C8: for an input longer than 18 characters, the formatter strips the
organizational prefix and splits on the dash: with exactly three segments it
returns series + last two year digits + number with leading zeros stripped,
truncated to 18 characters, and otherwise the last 18 characters; and
formatting "ACC-SINV-2024-00007" yields "SINV247". -/
theorem C8_format_long_input (s : List Char) (h : 18 < s.length) :
    (if ((stripACC s).splitOn '-').length = 3 then
      format_invoice_number s =
        (((stripACC s).splitOn '-').getD 0 [] ++
         pyTakeRight 2 (((stripACC s).splitOn '-').getD 1 []) ++
         lstripZeros (((stripACC s).splitOn '-').getD 2 [])).take 18
    else
      format_invoice_number s = pyTakeRight 18 s) ∧
    format_invoice_number "ACC-SINV-2024-00007".toList = "SINV247".toList := by
  constructor
  · have hn : ¬ s.length ≤ 18 := by omega
    by_cases hp : ((stripACC s).splitOn '-').length = 3
    · rw [if_pos hp]
      unfold format_invoice_number
      simp only []
      rw [if_neg hn, if_pos hp]
    · rw [if_neg hp]
      unfold format_invoice_number
      simp only []
      rw [if_neg hn, if_neg hp]
  · decide

theorem C8_witness :
    format_invoice_number "ACC-SINV-2024-00007".toList = "SINV247".toList :=
  (C8_format_long_input "ACC-SINV-2024-00007".toList (by decide)).2

end AqiqTims
